import Mathlib

/-!
Verification development for the DXF parser found in
src/sample/libs/js/dxf-parser.js (modules: AutoCadColorIndex,
DxfArrayScanner with parseGroupValue/parseBoolean, and DxfParser with its
section/table/entity sub-parsers).

Modelling conventions, stated once:
* JS numbers are modelled as rationals; the ARC angle fields, which the source
  fills with Math.PI-based radian values, are modelled as reals.
* A JS object field that is never assigned (undefined) is modelled as none
  (for the one boolean field that is only ever set to true, as false).
* The document-builder layer works on the scanner's output, a stream of
  (group code, typed value) pairs; the string-to-group layer (DxfArrayScanner
  and parseGroupValue) is modelled separately below it.
* Thrown JS errors are modelled with Except / an error constructor; a loop
  that runs forever is modelled with fuel, every loop iteration consuming one
  unit: a function returning timeout for every fuel value diverges.
-/

/-- Typed value of a group as the document builder receives it from the
scanner (string, number, or boolean, depending on the group-code range). -/
inductive GVal where
  | str (s : String)
  | num (x : ℚ)
  | bool (b : Bool)
deriving DecidableEq

/-- A group: the (code, value) pair produced by one scanner.next() call.
At the builder layer the code line has already been parsed to an integer. -/
structure DxfGroup where
  code : Int
  value : GVal
deriving DecidableEq

/-- The JS errors the parser can throw. -/
inductive JsErr where
  | unexpectedEof
  | endOfInput
  | typeMismatch (s : String)
  | emptyFile
  | pointCodeMismatch (expected got : Int)
  | nMustBePositive
  | typeErrorUndefined
deriving DecidableEq

/-- The builder's cursor: the current group (the source's curr variable) and
the groups the scanner has not yet produced. -/
structure PState where
  curr : DxfGroup
  rest : List DxfGroup
deriving DecidableEq

/-- scanner.next() as seen from the document builder: move the cursor one
group forward, throwing when the stream is exhausted. -/
def pnext (s : PState) : Except JsErr PState :=
  match s.rest with
  | [] => .error .unexpectedEof
  | g :: gs => .ok ⟨g, gs⟩

/-- Numeric reading of a group value at the sites where the source uses it as
a JS number (comparisons, Math.abs, arithmetic). The scanner's range table
delivers numbers at every such site; the other constructors are given the
JS-truthiness-compatible values. -/
def jsNum : GVal → ℚ
  | .num q => q
  | .bool true => 1
  | .bool false => 0
  | .str _ => 0

/-- A parsed 2D/3D point; also used as a polyline vertex, which may in
addition carry a bulge. -/
structure DPoint where
  x : GVal
  y : GVal
  z : Option GVal := none
  bulge : Option GVal := none
deriving DecidableEq

/-- parsePoint: reads x from the current group with code N, requires the next
group to carry code N+10 for y (throwing the Expected-code error otherwise),
and consumes an N+20 z group only when present, leaving the cursor on the
first group it did not consume. -/
def parsePoint (s : PState) : Except JsErr (DPoint × PState) :=
  let code := s.curr.code
  let xv := s.curr.value
  match pnext s with
  | .error e => .error e
  | .ok s1 =>
    if s1.curr.code ≠ code + 10 then
      .error (.pointCodeMismatch (code + 10) s1.curr.code)
    else
      let yv := s1.curr.value
      match pnext s1 with
      | .error e => .error e
      | .ok s2 =>
        if s2.curr.code ≠ code + 20 then
          .ok (⟨xv, yv, none, none⟩, s2)
        else
          match pnext s2 with
          | .error e => .error e
          | .ok s3 => .ok (⟨xv, yv, some s2.curr.value, none⟩, s3)

/-- The body of the parsePolylineVertices for-loop: one iteration per counted
vertex, reading a point and an optional nonzero code-42 bulge. -/
def parsePolylineVerticesLoop : Nat → List DPoint → PState → Except JsErr (List DPoint × PState)
  | 0, acc, s => .ok (acc, s)
  | k+1, acc, s =>
    match parsePoint s with
    | .error e => .error e
    | .ok (p, s1) =>
      if s1.curr.code = 42 ∧ s1.curr.value ≠ .num 0 then
        match pnext s1 with
        | .error e => .error e
        | .ok s2 => parsePolylineVerticesLoop k (acc ++ [{ p with bulge := some s1.curr.value }]) s2
      else
        parsePolylineVerticesLoop k (acc ++ [p]) s1

/-- parsePolylineVertices(n): throws the n-must-be-greater-than-0 error unless
n is positive, then reads that many vertices. The JS for-loop bound is a
number; for positive n it runs ceil(n) iterations. -/
def parsePolylineVertices (n : ℚ) (s : PState) : Except JsErr (List DPoint × PState) :=
  if n ≤ 0 then .error .nMustBePositive
  else parsePolylineVerticesLoop n.ceil.toNat [] s

/-- The polymorphic entity record. The source builds plain JS objects whose
field set depends on the entity type; unassigned fields are none here (and
the two vertex/point arrays default to empty). The ARC angle fields hold the
radian values the source computes with Math.PI. -/
structure Entity where
  type : GVal
  vertices : List DPoint := []
  shape : Option Bool := none
  center : Option DPoint := none
  radius : Option GVal := none
  startAngle : Option ℝ := none
  endAngle : Option ℝ := none
  angleLength : Option ℝ := none
  startPoint : Option DPoint := none
  endPoint : Option DPoint := none
  textHeight : Option GVal := none
  text : Option GVal := none
  halign : Option GVal := none
  valign : Option GVal := none
  block : Option GVal := none
  anchorPoint : Option DPoint := none
  middleOfText : Option DPoint := none
  attachmentPoint : Option GVal := none
  actualMeasurement : Option GVal := none
  angle : Option GVal := none
  points0 : Option DPoint := none
  points1 : Option DPoint := none
  points2 : Option DPoint := none
  points3 : Option DPoint := none
  position : Option DPoint := none
  thickness : Option GVal := none
  extrusionDirection : Option DPoint := none
  lineType : Option GVal := none
  layer : Option GVal := none
  color : Option GVal := none

/-- checkCommonEntityProperties: the shared common-attribute dispatch
(6 lineType, 8 layer, 62 indexed color, 420 true color, anything else
ignored); every branch advances the cursor by one group. -/
def checkCommonEntityProperties (e : Entity) (s : PState) : Except JsErr (Entity × PState) :=
  match pnext s with
  | .error er => .error er
  | .ok s1 =>
    if s.curr.code = 6 then .ok ({ e with lineType := some s.curr.value }, s1)
    else if s.curr.code = 8 then .ok ({ e with layer := some s.curr.value }, s1)
    else if s.curr.code = 62 then .ok ({ e with color := some s.curr.value }, s1)
    else if s.curr.code = 420 then .ok ({ e with color := some s.curr.value }, s1)
    else .ok (e, s1)

/-- Result of a fuelled sub-parser run: timeout means the fuel ran out, which
for every fuel value means the source loop never terminates. -/
inductive PRes (α : Type) where
  | timeout
  | err (e : JsErr)
  | ok (a : α) (s : PState)

/-- The entity produced by a sub-parser run, when it produced one. -/
def PRes.entity? : PRes Entity → Option Entity
  | .ok e _ => some e
  | _ => none

/-- The LWPOLYLINE while-loop: code 70 sets the closed-shape flag by strict
equality of the value with the number 1, code 90 stores the vertex count,
code 10 hands off to parsePolylineVertices with that count, code 0 ends the
entity, anything else goes through the common-property dispatch. -/
def parseLWPOLYLINELoop : Nat → Entity → ℚ → PState → PRes Entity
  | 0, _, _, _ => .timeout
  | f+1, e, nVerts, s =>
    if s.curr.code = 0 then .ok e s
    else if s.curr.code = 70 then
      match pnext s with
      | .error er => .err er
      | .ok s1 => parseLWPOLYLINELoop f { e with shape := some (s.curr.value == GVal.num 1) } nVerts s1
    else if s.curr.code = 90 then
      match pnext s with
      | .error er => .err er
      | .ok s1 => parseLWPOLYLINELoop f e (jsNum s.curr.value) s1
    else if s.curr.code = 10 then
      match parsePolylineVertices nVerts s with
      | .error er => .err er
      | .ok (vs, s1) => parseLWPOLYLINELoop f { e with vertices := vs } nVerts s1
    else
      match checkCommonEntityProperties e s with
      | .error er => .err er
      | .ok (e1, s1) => parseLWPOLYLINELoop f e1 nVerts s1

/-- parseLWPOLYLINE: entered on the (0, LWPOLYLINE) group; initializes the
entity with the type tag and an empty vertex list and a vertex count of 0,
advances once, then runs the loop. -/
def parseLWPOLYLINE (fuel : Nat) (s : PState) : PRes Entity :=
  match pnext s with
  | .error er => .err er
  | .ok s1 => parseLWPOLYLINELoop fuel { type := s.curr.value, vertices := [] } 0 s1

/-- The LINE while-loop: code 10 reads exactly two vertices through
parsePolylineVertices, code 0 ends the entity, anything else goes through the
common-property dispatch. -/
def parseLINELoop : Nat → Entity → PState → PRes Entity
  | 0, _, _ => .timeout
  | f+1, e, s =>
    if s.curr.code = 0 then .ok e s
    else if s.curr.code = 10 then
      match parsePolylineVertices 2 s with
      | .error er => .err er
      | .ok (vs, s1) => parseLINELoop f { e with vertices := vs } s1
    else
      match checkCommonEntityProperties e s with
      | .error er => .err er
      | .ok (e1, s1) => parseLINELoop f e1 s1

/-- parseLINE: entered on the (0, LINE) group. -/
def parseLINE (fuel : Nat) (s : PState) : PRes Entity :=
  match pnext s with
  | .error er => .err er
  | .ok s1 => parseLINELoop fuel { type := s.curr.value, vertices := [] } s1

open Classical in
/-- The CIRCLE/ARC while-loop. Code 50 stores the start angle converted to
radians; code 51 converts the end angle, computes angleLength as the
difference, adding a full turn when the raw subtraction would be negative,
and stores the end angle. When no start angle was seen, the JS comparison
with undefined is false and the subtraction yields NaN, modelled as none. -/
noncomputable def parseCIRCLELoop : Nat → Entity → PState → PRes Entity
  | 0, _, _ => .timeout
  | f+1, e, s =>
    if s.curr.code = 0 then .ok e s
    else if s.curr.code = 10 then
      match parsePoint s with
      | .error er => .err er
      | .ok (p, s1) => parseCIRCLELoop f { e with center := some p } s1
    else if s.curr.code = 40 then
      match pnext s with
      | .error er => .err er
      | .ok s1 => parseCIRCLELoop f { e with radius := some s.curr.value } s1
    else if s.curr.code = 50 then
      match pnext s with
      | .error er => .err er
      | .ok s1 =>
        parseCIRCLELoop f { e with startAngle := some (Real.pi / 180 * (jsNum s.curr.value : ℝ)) } s1
    else if s.curr.code = 51 then
      let endAngle : ℝ := Real.pi / 180 * (jsNum s.curr.value : ℝ)
      let e1 :=
        match e.startAngle with
        | some sa =>
          { e with
            angleLength := some (if endAngle < sa then endAngle + 2 * Real.pi - sa
                                 else endAngle - sa),
            endAngle := some endAngle }
        | none => { e with angleLength := none, endAngle := some endAngle }
      match pnext s with
      | .error er => .err er
      | .ok s1 => parseCIRCLELoop f e1 s1
    else
      match checkCommonEntityProperties e s with
      | .error er => .err er
      | .ok (e1, s1) => parseCIRCLELoop f e1 s1

/-- parseCIRCLE: entered on the (0, CIRCLE) or (0, ARC) group (the source
uses the same routine for both). -/
noncomputable def parseCIRCLE (fuel : Nat) (s : PState) : PRes Entity :=
  match pnext s with
  | .error er => .err er
  | .ok s1 => parseCIRCLELoop fuel { type := s.curr.value } s1

/-- The TEXT while-loop (codes 10, 11, 40, 1, 72, 73, else common). -/
def parseTEXTLoop : Nat → Entity → PState → PRes Entity
  | 0, _, _ => .timeout
  | f+1, e, s =>
    if s.curr.code = 0 then .ok e s
    else if s.curr.code = 10 then
      match parsePoint s with
      | .error er => .err er
      | .ok (p, s1) => parseTEXTLoop f { e with startPoint := some p } s1
    else if s.curr.code = 11 then
      match parsePoint s with
      | .error er => .err er
      | .ok (p, s1) => parseTEXTLoop f { e with endPoint := some p } s1
    else if s.curr.code = 40 then
      match pnext s with
      | .error er => .err er
      | .ok s1 => parseTEXTLoop f { e with textHeight := some s.curr.value } s1
    else if s.curr.code = 1 then
      match pnext s with
      | .error er => .err er
      | .ok s1 => parseTEXTLoop f { e with text := some s.curr.value } s1
    else if s.curr.code = 72 then
      match pnext s with
      | .error er => .err er
      | .ok s1 => parseTEXTLoop f { e with halign := some s.curr.value } s1
    else if s.curr.code = 73 then
      match pnext s with
      | .error er => .err er
      | .ok s1 => parseTEXTLoop f { e with valign := some s.curr.value } s1
    else
      match checkCommonEntityProperties e s with
      | .error er => .err er
      | .ok (e1, s1) => parseTEXTLoop f e1 s1

/-- parseTEXT: entered on the (0, TEXT) group. -/
def parseTEXT (fuel : Nat) (s : PState) : PRes Entity :=
  match pnext s with
  | .error er => .err er
  | .ok s1 => parseTEXTLoop fuel { type := s.curr.value } s1

/-- The DIMENSION while-loop (codes 2, 10, 11, 71, 42, 1, 50, else common). -/
def parseDIMENSIONLoop : Nat → Entity → PState → PRes Entity
  | 0, _, _ => .timeout
  | f+1, e, s =>
    if s.curr.code = 0 then .ok e s
    else if s.curr.code = 2 then
      match pnext s with
      | .error er => .err er
      | .ok s1 => parseDIMENSIONLoop f { e with block := some s.curr.value } s1
    else if s.curr.code = 10 then
      match parsePoint s with
      | .error er => .err er
      | .ok (p, s1) => parseDIMENSIONLoop f { e with anchorPoint := some p } s1
    else if s.curr.code = 11 then
      match parsePoint s with
      | .error er => .err er
      | .ok (p, s1) => parseDIMENSIONLoop f { e with middleOfText := some p } s1
    else if s.curr.code = 71 then
      match pnext s with
      | .error er => .err er
      | .ok s1 => parseDIMENSIONLoop f { e with attachmentPoint := some s.curr.value } s1
    else if s.curr.code = 42 then
      match pnext s with
      | .error er => .err er
      | .ok s1 => parseDIMENSIONLoop f { e with actualMeasurement := some s.curr.value } s1
    else if s.curr.code = 1 then
      match pnext s with
      | .error er => .err er
      | .ok s1 => parseDIMENSIONLoop f { e with text := some s.curr.value } s1
    else if s.curr.code = 50 then
      match pnext s with
      | .error er => .err er
      | .ok s1 => parseDIMENSIONLoop f { e with angle := some s.curr.value } s1
    else
      match checkCommonEntityProperties e s with
      | .error er => .err er
      | .ok (e1, s1) => parseDIMENSIONLoop f e1 s1

/-- parseDIMENSION: entered on the (0, DIMENSION) group. -/
def parseDIMENSION (fuel : Nat) (s : PState) : PRes Entity :=
  match pnext s with
  | .error er => .err er
  | .ok s1 => parseDIMENSIONLoop fuel { type := s.curr.value } s1

/-- The SOLID while-loop (corner points at 10/11/12/13, extrusion at 210). -/
def parseSOLIDLoop : Nat → Entity → PState → PRes Entity
  | 0, _, _ => .timeout
  | f+1, e, s =>
    if s.curr.code = 0 then .ok e s
    else if s.curr.code = 10 then
      match parsePoint s with
      | .error er => .err er
      | .ok (p, s1) => parseSOLIDLoop f { e with points0 := some p } s1
    else if s.curr.code = 11 then
      match parsePoint s with
      | .error er => .err er
      | .ok (p, s1) => parseSOLIDLoop f { e with points1 := some p } s1
    else if s.curr.code = 12 then
      match parsePoint s with
      | .error er => .err er
      | .ok (p, s1) => parseSOLIDLoop f { e with points2 := some p } s1
    else if s.curr.code = 13 then
      match parsePoint s with
      | .error er => .err er
      | .ok (p, s1) => parseSOLIDLoop f { e with points3 := some p } s1
    else if s.curr.code = 210 then
      match parsePoint s with
      | .error er => .err er
      | .ok (p, s1) => parseSOLIDLoop f { e with extrusionDirection := some p } s1
    else
      match checkCommonEntityProperties e s with
      | .error er => .err er
      | .ok (e1, s1) => parseSOLIDLoop f e1 s1

/-- parseSOLID: entered on the (0, SOLID) group; the source also initializes
the points array, here the four points fields. -/
def parseSOLID (fuel : Nat) (s : PState) : PRes Entity :=
  match pnext s with
  | .error er => .err er
  | .ok s1 => parseSOLIDLoop fuel { type := s.curr.value } s1

/-- The POINT while-loop. Case 10 reads the position and case 210 the
extrusion direction, both through parsePoint which advances the cursor; the
thickness case 39 stores the value and falls back into the loop WITHOUT a
scanner.next() call, exactly as the source does. -/
def parsePOINTLoop : Nat → Entity → PState → PRes Entity
  | 0, _, _ => .timeout
  | f+1, e, s =>
    if s.curr.code = 0 then .ok e s
    else if s.curr.code = 10 then
      match parsePoint s with
      | .error er => .err er
      | .ok (p, s1) => parsePOINTLoop f { e with position := some p } s1
    else if s.curr.code = 39 then
      parsePOINTLoop f { e with thickness := some s.curr.value } s
    else if s.curr.code = 210 then
      match parsePoint s with
      | .error er => .err er
      | .ok (p, s1) => parsePOINTLoop f { e with extrusionDirection := some p } s1
    else
      match checkCommonEntityProperties e s with
      | .error er => .err er
      | .ok (e1, s1) => parsePOINTLoop f e1 s1

/-- parsePOINT: entered on the (0, POINT) group. -/
def parsePOINT (fuel : Nat) (s : PState) : PRes Entity :=
  match pnext s with
  | .error er => .err er
  | .ok s1 => parsePOINTLoop fuel { type := s.curr.value } s1

/-- The parseEntities while-loop. On a code-0 group it either ends the
section/block, dispatches a supported entity type to its sub-parser (the
source supports exactly LWPOLYLINE, LINE, CIRCLE, ARC, TEXT, DIMENSION,
SOLID and POINT), or logs an unsupported-entity warning and advances; on any
other code it advances. After the loop the ENDSEC/ENDBLK group is consumed. -/
noncomputable def parseEntitiesLoop : Nat → Bool → List Entity → PState → PRes (List Entity)
  | 0, _, _, _ => .timeout
  | f+1, forBlock, acc, s =>
    let ending : GVal := .str (if forBlock then "ENDBLK" else "ENDSEC")
    if s.curr.code = 0 then
      if s.curr.value = ending then
        match pnext s with
        | .error er => .err er
        | .ok s1 => .ok acc s1
      else if s.curr.value = .str "LWPOLYLINE" then
        match parseLWPOLYLINE f s with
        | .timeout => .timeout
        | .err er => .err er
        | .ok e s1 => parseEntitiesLoop f forBlock (acc ++ [e]) s1
      else if s.curr.value = .str "LINE" then
        match parseLINE f s with
        | .timeout => .timeout
        | .err er => .err er
        | .ok e s1 => parseEntitiesLoop f forBlock (acc ++ [e]) s1
      else if s.curr.value = .str "CIRCLE" then
        match parseCIRCLE f s with
        | .timeout => .timeout
        | .err er => .err er
        | .ok e s1 => parseEntitiesLoop f forBlock (acc ++ [e]) s1
      else if s.curr.value = .str "ARC" then
        match parseCIRCLE f s with
        | .timeout => .timeout
        | .err er => .err er
        | .ok e s1 => parseEntitiesLoop f forBlock (acc ++ [e]) s1
      else if s.curr.value = .str "TEXT" then
        match parseTEXT f s with
        | .timeout => .timeout
        | .err er => .err er
        | .ok e s1 => parseEntitiesLoop f forBlock (acc ++ [e]) s1
      else if s.curr.value = .str "DIMENSION" then
        match parseDIMENSION f s with
        | .timeout => .timeout
        | .err er => .err er
        | .ok e s1 => parseEntitiesLoop f forBlock (acc ++ [e]) s1
      else if s.curr.value = .str "SOLID" then
        match parseSOLID f s with
        | .timeout => .timeout
        | .err er => .err er
        | .ok e s1 => parseEntitiesLoop f forBlock (acc ++ [e]) s1
      else if s.curr.value = .str "POINT" then
        match parsePOINT f s with
        | .timeout => .timeout
        | .err er => .err er
        | .ok e s1 => parseEntitiesLoop f forBlock (acc ++ [e]) s1
      else
        match pnext s with
        | .error er => .err er
        | .ok s1 => parseEntitiesLoop f forBlock acc s1
    else
      match pnext s with
      | .error er => .err er
      | .ok s1 => parseEntitiesLoop f forBlock acc s1

/-- parseEntities: called with the cursor already on the first entity's
type-tag group; collects the parsed entities in order until ENDSEC (or
ENDBLK when parsing a block's entities), skipping unsupported types. -/
noncomputable def parseEntities (fuel : Nat) (forBlock : Bool) (s : PState) : PRes (List Entity) :=
  parseEntitiesLoop fuel forBlock [] s

/-- The AutoCad color index palette from AutoCadColorIndex.js: 256 truecolor
values, looked up by index. -/
def AUTO_CAD_COLOR_INDEX : List Nat := [
  0, 16711680, 16776960, 65280, 65535, 255, 16711935, 16777215, 8421504, 12632256,
  16711680, 16744319, 13369344, 13395558, 10027008, 10046540, 8323072, 8339263, 4980736, 4990502,
  16727808, 16752511, 13382400, 13401958, 10036736, 10051404, 8331008, 8343359, 4985600, 4992806,
  16744192, 16760703, 13395456, 13408614, 10046464, 10056268, 8339200, 8347455, 4990464, 4995366,
  16760576, 16768895, 13408512, 13415014, 10056192, 10061132, 8347392, 8351551, 4995328, 4997670,
  16776960, 16777087, 13421568, 13421670, 10000384, 10000460, 8355584, 8355647, 5000192, 5000230,
  12582656, 14679935, 10079232, 11717734, 7510016, 8755276, 6258432, 7307071, 3755008, 4344870,
  8388352, 12582783, 6736896, 10079334, 5019648, 7510092, 4161280, 6258495, 2509824, 3755046,
  4194048, 10485631, 3394560, 8375398, 2529280, 6264908, 2064128, 5209919, 1264640, 3099686,
  65280, 8388479, 52224, 6736998, 38912, 5019724, 32512, 4161343, 19456, 2509862,
  65343, 8388511, 52275, 6737023, 38950, 5019743, 32543, 4161359, 19475, 2509871,
  65407, 8388543, 52326, 6737049, 38988, 5019762, 32575, 4161375, 19494, 2509881,
  65471, 8388575, 52377, 6737074, 39026, 5019781, 32607, 4161391, 19513, 2509890,
  65535, 8388607, 52428, 6737100, 39064, 5019800, 32639, 4161407, 19532, 2509900,
  49151, 8380415, 39372, 6730444, 29336, 5014936, 24447, 4157311, 14668, 2507340,
  32767, 8372223, 26316, 6724044, 19608, 5010072, 16255, 4153215, 9804, 2505036,
  16383, 8364031, 13260, 6717388, 9880, 5005208, 8063, 4149119, 4940, 2502476,
  255, 8355839, 204, 6710988, 152, 5000344, 127, 4145023, 76, 2500172,
  4129023, 10452991, 3342540, 8349388, 2490520, 6245528, 2031743, 5193599, 1245260, 3089996,
  8323327, 12550143, 6684876, 10053324, 4980888, 7490712, 4128895, 6242175, 2490444, 3745356,
  12517631, 14647295, 10027212, 11691724, 7471256, 8735896, 6226047, 7290751, 3735628, 4335180,
  16711935, 16744447, 13369548, 13395660, 9961624, 9981080, 8323199, 8339327, 4980812, 4990540,
  16711871, 16744415, 13369497, 13395634, 9961586, 9981061, 8323167, 8339311, 4980793, 4990530,
  16711807, 16744383, 13369446, 13395609, 9961548, 9981042, 8323135, 8339295, 4980774, 4990521,
  16711743, 16744351, 13369395, 13395583, 9961510, 9981023, 8323103, 8339279, 4980755, 4990511,
  3355443, 5987163, 8684676, 11382189, 14079702, 16777215]

/-- getAcadColor: the JS array lookup AUTO_CAD_COLOR_INDEX[index]. A JS array
read is undefined (none) off the nonnegative-integer index range. -/
def getAcadColor (index : ℚ) : Option Nat :=
  if index.den = 1 ∧ 0 ≤ index.num then AUTO_CAD_COLOR_INDEX.get? index.num.toNat else none

/-- A layer table record. The hidden field is only ever assigned true by the
source, so the JS-undefined default is modelled as false. -/
structure Layer where
  name : Option GVal := none
  hidden : Bool := false
  color : Option Nat := none
deriving DecidableEq

/-- Assignment to a JS object property: overwrite the existing binding or
append a new one, preserving insertion order. The key is the current record
name variable, which can still be undefined (none). -/
def jsObjSet {α : Type} (m : List (Option GVal × α)) (k : Option GVal) (v : α) :
    List (Option GVal × α) :=
  if m.any (fun p => p.1 == k) then m.map (fun p => if p.1 == k then (k, v) else p)
  else m ++ [(k, v)]

/-- The parseLayers while-loop, running until the (0, ENDTAB) group, which it
leaves unconsumed. Code 2 records the name, code 62 marks the layer hidden
when the value is nonpositive and resolves the absolute value through the
palette, and a code-0 group flushes the record under the current name —
advancing only when that group opens a new LAYER record, as the source does. -/
def parseLayersLoop : Nat → List (Option GVal × Layer) → Option GVal → Layer → PState →
    PRes (List (Option GVal × Layer))
  | 0, _, _, _, _ => .timeout
  | f+1, layers, layerName, layer, s =>
    if s.curr.code = 0 ∧ s.curr.value = .str "ENDTAB" then
      .ok (jsObjSet layers layerName layer) s
    else if s.curr.code = 2 then
      match pnext s with
      | .error er => .err er
      | .ok s1 =>
        parseLayersLoop f layers (some s.curr.value)
          { layer with name := some s.curr.value } s1
    else if s.curr.code = 62 then
      let layer1 := if jsNum s.curr.value ≤ 0 then { layer with hidden := true } else layer
      match pnext s with
      | .error er => .err er
      | .ok s1 =>
        parseLayersLoop f layers layerName
          { layer1 with color := getAcadColor |jsNum s.curr.value| } s1
    else if s.curr.code = 0 then
      let layers1 := jsObjSet layers layerName layer
      if s.curr.value = .str "LAYER" then
        match pnext s with
        | .error er => .err er
        | .ok s1 => parseLayersLoop f layers1 none {} s1
      else
        parseLayersLoop f layers1 layerName layer s
    else
      match pnext s with
      | .error er => .err er
      | .ok s1 => parseLayersLoop f layers layerName layer s1

/-- parseLayers: entered on the first (0, LAYER) group of the table, which it
consumes before looping; on ENDTAB the final record is flushed and the
cursor is left on the ENDTAB group for parseLayerTable. -/
def parseLayers (fuel : Nat) (s : PState) : PRes (List (Option GVal × Layer)) :=
  match pnext s with
  | .error er => .err er
  | .ok s1 => parseLayersLoop fuel [] none {} s1

/-- A line-type table record. The pattern list is allocated (some) only when
a positive code-73 element count was declared. -/
structure LType where
  name : Option GVal := none
  description : Option GVal := none
  pattern : Option (List GVal) := none
  patternLength : Option GVal := none
deriving DecidableEq

/-- The parseLineTypes while-loop, running until the (0, ENDTAB) group. The
boolean accumulator records whether the declared-count-vs-pattern-length
warning was logged. Code 73 stores the declared count, allocating the
pattern only when it is positive; code 49 pushes onto the pattern, a JS
TypeError when that list was never allocated; a code-0 group checks the
declared count against the parsed pattern length (warning on mismatch, a JS
TypeError when the count is positive and the pattern is unallocated),
flushes the record and advances. The declared-count variable is NOT reset
between records, as in the source. -/
def parseLineTypesLoop : Nat → List (Option GVal × LType) → Option GVal → LType →
    Option GVal → Bool → PState → PRes (List (Option GVal × LType) × Bool)
  | 0, _, _, _, _, _, _ => .timeout
  | f+1, ltypes, ltypeName, ltype, length, warned, s =>
    if s.curr.code = 0 ∧ s.curr.value = .str "ENDTAB" then
      .ok (jsObjSet ltypes ltypeName ltype, warned) s
    else if s.curr.code = 2 then
      match pnext s with
      | .error er => .err er
      | .ok s1 =>
        parseLineTypesLoop f ltypes (some s.curr.value)
          { ltype with name := some s.curr.value } length warned s1
    else if s.curr.code = 3 then
      match pnext s with
      | .error er => .err er
      | .ok s1 =>
        parseLineTypesLoop f ltypes ltypeName
          { ltype with description := some s.curr.value } length warned s1
    else if s.curr.code = 73 then
      let ltype1 :=
        if 0 < jsNum s.curr.value then { ltype with pattern := some [] } else ltype
      match pnext s with
      | .error er => .err er
      | .ok s1 => parseLineTypesLoop f ltypes ltypeName ltype1 (some s.curr.value) warned s1
    else if s.curr.code = 40 then
      match pnext s with
      | .error er => .err er
      | .ok s1 =>
        parseLineTypesLoop f ltypes ltypeName
          { ltype with patternLength := some s.curr.value } length warned s1
    else if s.curr.code = 49 then
      match ltype.pattern with
      | none => .err .typeErrorUndefined
      | some pat =>
        match pnext s with
        | .error er => .err er
        | .ok s1 =>
          parseLineTypesLoop f ltypes ltypeName
            { ltype with pattern := some (pat ++ [s.curr.value]) } length warned s1
    else if s.curr.code = 0 then
      match (match length with
             | none => some warned
             | some lv =>
               if 0 < jsNum lv then
                 match ltype.pattern with
                 | none => none
                 | some pat =>
                   if jsNum lv ≠ (pat.length : ℚ) then some true else some warned
               else some warned) with
      | none => .err .typeErrorUndefined
      | some warned1 =>
        match pnext s with
        | .error er => .err er
        | .ok s1 =>
          parseLineTypesLoop f (jsObjSet ltypes ltypeName ltype) ltypeName {} length warned1 s1
    else
      match pnext s with
      | .error er => .err er
      | .ok s1 => parseLineTypesLoop f ltypes ltypeName ltype length warned s1

/-- parseLineTypes: entered on the first (0, LTYPE) group of the table, which
it consumes before looping. On ENDTAB the final record is flushed WITHOUT
the declared-count check and the cursor stays on the ENDTAB group. -/
def parseLineTypes (fuel : Nat) (s : PState) : PRes (List (Option GVal × LType) × Bool) :=
  match pnext s with
  | .error er => .err er
  | .ok s1 => parseLineTypesLoop fuel [] none {} none false s1

/-- Decimal value of a digit run, most significant digit first. -/
def digitsToNat (ds : List Char) : Nat :=
  ds.foldl (fun a c => 10 * a + (c.toNat - 48)) 0

/-- The whitespace characters the JS trim and numeric parses skip, restricted
to the ones that occur in DXF line data. -/
def isJsSpace (c : Char) : Bool :=
  c = ' ' ∨ c = '\t' ∨ c = '\r' ∨ c = '\n'

/-- The JS String.prototype.trim call on a line: leading and trailing
whitespace removed. -/
def jsTrim (s : String) : String :=
  String.mk (((s.toList.dropWhile isJsSpace).reverse.dropWhile isJsSpace).reverse)

/-- Model of the JS parseInt call on the decimal inputs the scanner feeds it:
leading whitespace skipped, an optional sign, then the leading run of decimal
digits; none models the NaN result when no digit is found. Radix prefixes
are outside the inputs this parser produces. -/
def jsParseInt (s : String) : Option Int :=
  match s.toList.dropWhile isJsSpace with
  | '-' :: rest =>
    let ds := rest.takeWhile Char.isDigit
    if ds.isEmpty then none else some (-(digitsToNat ds : Int))
  | '+' :: rest =>
    let ds := rest.takeWhile Char.isDigit
    if ds.isEmpty then none else some (digitsToNat ds : Int)
  | cs =>
    let ds := cs.takeWhile Char.isDigit
    if ds.isEmpty then none else some (digitsToNat ds : Int)

/-- Magnitude part of a JS parseFloat: digits, optionally a dot and more
digits; none when no digit is present at all. -/
def jsParseFloatMag (cs : List Char) : Option ℚ :=
  let ds := cs.takeWhile Char.isDigit
  match cs.drop ds.length with
  | '.' :: rest =>
    let fs := rest.takeWhile Char.isDigit
    if ds.isEmpty ∧ fs.isEmpty then none
    else some ((digitsToNat ds : ℚ) + (digitsToNat fs : ℚ) / (10 : ℚ) ^ fs.length)
  | _ => if ds.isEmpty then none else some (digitsToNat ds : ℚ)

/-- Model of the JS parseFloat call on the decimal inputs the scanner feeds
it: leading whitespace skipped, optional sign, digits with an optional
fractional part; none models NaN. Exponent notation is outside the inputs
this development exercises. -/
def jsParseFloat (s : String) : Option ℚ :=
  match s.toList.dropWhile isJsSpace with
  | '-' :: cs => (jsParseFloatMag cs).map (fun q => -q)
  | '+' :: cs => jsParseFloatMag cs
  | cs => jsParseFloatMag cs

/-- The typed value parseGroupValue returns: the constructor records which
coercion the range table selected, and the float/int payloads keep the NaN
possibility of the underlying JS parse as none. -/
inductive TypedValue where
  | str (s : String)
  | float (x : Option ℚ)
  | int (n : Option Int)
  | bool (b : Bool)
deriving DecidableEq

/-- parseBoolean: the strings 0 and 1 map to false and true, anything else
throws the cannot-be-cast TypeError. -/
def parseBoolean (s : String) : Except JsErr Bool :=
  if s = "0" then .ok false
  else if s = "1" then .ok true
  else .error (.typeMismatch s)

/-- JS comparison code <= k where the code may be NaN (none): every NaN
comparison is false. -/
def jle (code : Option Int) (k : Int) : Bool :=
  match code with
  | some c => decide (c ≤ k)
  | none => false

/-- JS comparison code >= k with NaN false. -/
def jge (code : Option Int) (k : Int) : Bool :=
  match code with
  | some c => decide (k ≤ c)
  | none => false

/-- JS strict equality code === k with NaN false. -/
def jeqI (code : Option Int) (k : Int) : Bool :=
  match code with
  | some c => decide (c = k)
  | none => false

/-- parseGroupValue: the fixed range table from the source, in the source's
order of tests. The boolean result component records whether the
no-defined-type warning was logged; the raw string is returned unchanged in
that case. The boolean range can throw through parseBoolean. -/
def parseGroupValue (code : Option Int) (value : String) : Except JsErr (TypedValue × Bool) :=
  if jle code 9 then .ok (.str value, false)
  else if jge code 10 && jle code 59 then .ok (.float (jsParseFloat value), false)
  else if jge code 60 && jle code 99 then .ok (.int (jsParseInt value), false)
  else if jge code 100 && jle code 109 then .ok (.str value, false)
  else if jge code 110 && jle code 149 then .ok (.float (jsParseFloat value), false)
  else if jge code 160 && jle code 179 then .ok (.int (jsParseInt value), false)
  else if jge code 210 && jle code 239 then .ok (.float (jsParseFloat value), false)
  else if jge code 270 && jle code 289 then .ok (.int (jsParseInt value), false)
  else if jge code 290 && jle code 299 then
    match parseBoolean value with
    | .error e => .error e
    | .ok b => .ok (.bool b, false)
  else if jge code 300 && jle code 369 then .ok (.str value, false)
  else if jge code 370 && jle code 389 then .ok (.int (jsParseInt value), false)
  else if jge code 390 && jle code 399 then .ok (.str value, false)
  else if jge code 400 && jle code 409 then .ok (.int (jsParseInt value), false)
  else if jge code 410 && jle code 419 then .ok (.str value, false)
  else if jge code 420 && jle code 429 then .ok (.int (jsParseInt value), false)
  else if jge code 430 && jle code 439 then .ok (.str value, false)
  else if jge code 440 && jle code 459 then .ok (.int (jsParseInt value), false)
  else if jge code 460 && jle code 469 then .ok (.float (jsParseFloat value), false)
  else if jge code 470 && jle code 481 then .ok (.str value, false)
  else if jeqI code 999 then .ok (.str value, false)
  else if jge code 1000 && jle code 1009 then .ok (.str value, false)
  else if jge code 1010 && jle code 1059 then .ok (.float (jsParseFloat value), false)
  else if jge code 1060 && jle code 1071 then .ok (.int (jsParseInt value), false)
  else .ok (.str value, true)

/-- The union of the range tests appearing in parseGroupValue: a code for
which this is false falls through to the warn-and-return-raw branch. -/
def definedCodeRange (code : Option Int) : Bool :=
  jle code 9 || (jge code 10 && jle code 59) || (jge code 60 && jle code 99) ||
  (jge code 100 && jle code 109) || (jge code 110 && jle code 149) ||
  (jge code 160 && jle code 179) || (jge code 210 && jle code 239) ||
  (jge code 270 && jle code 289) || (jge code 290 && jle code 299) ||
  (jge code 300 && jle code 369) || (jge code 370 && jle code 389) ||
  (jge code 390 && jle code 399) || (jge code 400 && jle code 409) ||
  (jge code 410 && jle code 419) || (jge code 420 && jle code 429) ||
  (jge code 430 && jle code 439) || (jge code 440 && jle code 459) ||
  (jge code 460 && jle code 469) || (jge code 470 && jle code 481) ||
  jeqI code 999 || (jge code 1000 && jle code 1009) ||
  (jge code 1010 && jle code 1059) || (jge code 1060 && jle code 1071)

/-- A group at the string layer: the code comes from parseInt of the code
line (NaN possible), the value from parseGroupValue. -/
structure AGroup where
  code : Option Int
  value : TypedValue
deriving DecidableEq

/-- DxfArrayScanner state: the monotone read pointer over the line array and
the EOF-group-seen flag. -/
structure DxfArrayScanner where
  pointer : Nat
  data : List String
  eof : Bool
deriving DecidableEq

/-- hasNext: false once the EOF group has been read, and false unless two more
lines remain (pointer <= length - 2 in JS integer arithmetic). -/
def DxfArrayScanner.hasNext (sc : DxfArrayScanner) : Bool :=
  if sc.eof then false
  else if (sc.pointer : Int) > (sc.data.length : Int) - 2 then false
  else true

/-- next: when no group is available, throws the unexpected-end-of-input
error if the EOF group was never read and the cannot-call-next-after-EOF
error otherwise; otherwise consumes two lines, parsing the code with
parseInt and the trimmed value line through parseGroupValue, and sets the
EOF flag when the group read is (0, EOF). -/
def DxfArrayScanner.next (sc : DxfArrayScanner) :
    Except JsErr (AGroup × DxfArrayScanner) :=
  if ¬ sc.hasNext then
    if ¬ sc.eof then .error .unexpectedEof else .error .endOfInput
  else
    let code := jsParseInt (sc.data.getD sc.pointer "")
    match parseGroupValue code (jsTrim (sc.data.getD (sc.pointer + 1) "")) with
    | .error e => .error e
    | .ok (v, _) =>
      let eof1 := if code = some 0 ∧ v = .str "EOF" then true else sc.eof
      .ok (⟨code, v⟩, ⟨sc.pointer + 2, sc.data, eof1⟩)

/-- isEOF: whether the EOF group has been read. -/
def DxfArrayScanner.isEOF (sc : DxfArrayScanner) : Bool := sc.eof

/-- A JS value arriving at the public parseSync entry point. -/
inductive JsVal where
  | str (s : String)
  | num (q : ℚ)
  | buffer (bytes : List Nat)
  | nullV
  | undefinedV
  | boolV (b : Bool)
deriving DecidableEq

/-- The JS typeof-source-is-string test parseSync performs. -/
def typeofIsString : JsVal → Bool
  | .str _ => true
  | _ => false

/-- Result of parseSync: either the delegation to the internal full parse on
the source string, or the implicit undefined return. -/
inductive ParseSyncOut where
  | parsed (source : String)
  | undefinedRet
deriving DecidableEq

/-- parseSync: a string source is handed to the internal parse; any other
source only logs a cannot-read error (the boolean component) and falls off
the function, returning undefined. -/
def parseSync (source : JsVal) : ParseSyncOut × Bool :=
  match source with
  | .str s => (.parsed s, false)
  | _ => (.undefinedRet, true)

open Classical in
/-- Specification-side formula for the ARC angle length as the source
computes it at code 51 when a code-50 start angle was already read: both
angles in radians, with a full turn added when the raw subtraction would be
negative. -/
noncomputable def specAngleLength (sa ea : ℚ) : ℝ :=
  if Real.pi / 180 * (ea : ℝ) < Real.pi / 180 * (sa : ℝ) then
    Real.pi / 180 * (ea : ℝ) + 2 * Real.pi - Real.pi / 180 * (sa : ℝ)
  else
    Real.pi / 180 * (ea : ℝ) - Real.pi / 180 * (sa : ℝ)

/-- A minimal single-entity section used in the entity-dispatch statements:
one type-tag group, then ENDSEC and the EOF group. -/
def entStream (t : String) : PState :=
  ⟨⟨0, .str t⟩, [⟨0, .str "ENDSEC"⟩, ⟨0, .str "EOF"⟩]⟩

/-- A one-record LAYER table: name group, color group, ENDTAB. -/
def layerStream (nm : String) (v : Int) : PState :=
  ⟨⟨0, .str "LAYER"⟩, [⟨2, .str nm⟩, ⟨62, .num (v : ℚ)⟩, ⟨0, .str "ENDTAB"⟩]⟩

/-- A one-record LTYPE table declaring n pattern elements and supplying
three, flushed by ENDTAB. -/
def ltypeOneRecordStream (n : ℚ) : PState :=
  ⟨⟨0, .str "LTYPE"⟩,
   [⟨2, .str "A"⟩, ⟨73, .num n⟩, ⟨49, .num 1⟩, ⟨49, .num (-2)⟩, ⟨49, .num 1⟩,
    ⟨0, .str "ENDTAB"⟩]⟩

/-- Two LTYPE records: the first declares n pattern elements and supplies
three, flushed by the following (0, LTYPE) group; the second carries only a
name and is flushed by ENDTAB. -/
def ltypeTwoRecordStream (n : ℚ) : PState :=
  ⟨⟨0, .str "LTYPE"⟩,
   [⟨2, .str "A"⟩, ⟨73, .num n⟩, ⟨49, .num 1⟩, ⟨49, .num (-2)⟩, ⟨49, .num 1⟩,
    ⟨0, .str "LTYPE"⟩, ⟨2, .str "B"⟩, ⟨0, .str "ENDTAB"⟩]⟩

/-- Helper for the non-termination proof: once the cursor sits on a code-39
group inside the POINT loop, one iteration changes nothing but the
thickness field and the loop never advances, for any amount of fuel. -/
lemma parsePOINTLoop_stuck_at_39 (f : Nat) (e : Entity) (v : GVal) (rest : List DxfGroup) :
    parsePOINTLoop f e ⟨⟨39, v⟩, rest⟩ = .timeout := by
  induction f generalizing e with
  | zero => rfl
  | succ f ih =>
    show parsePOINTLoop f { e with thickness := some v } ⟨⟨39, v⟩, rest⟩ = .timeout
    exact ih _

/-- C1: the claim states the parse of every finite input terminates because
every code path advances the cursor, a POINT entity with a thickness group
(code 39) in particular parsing to completion. The code violates this: the
POINT sub-parser's case 39 stores the thickness and re-enters the loop
without calling scanner.next(), so the loop state never changes and the
parse of a POINT with a thickness group never terminates (timeout for every
fuel value). -/
theorem parsePOINT_thickness_diverges :
    (∀ (f : Nat) (e : Entity) (v : GVal) (rest : List DxfGroup),
        parsePOINTLoop f e ⟨⟨39, v⟩, rest⟩ = .timeout) ∧
    (∀ f : Nat,
        parsePOINT f ⟨⟨0, .str "POINT"⟩,
          [⟨39, .num 1⟩, ⟨0, .str "ENDSEC"⟩, ⟨0, .str "EOF"⟩]⟩ = .timeout) := by
  refine ⟨parsePOINTLoop_stuck_at_39, fun f => ?_⟩
  show parsePOINTLoop f { type := .str "POINT" }
      ⟨⟨39, .num 1⟩, [⟨0, .str "ENDSEC"⟩, ⟨0, .str "EOF"⟩]⟩ = .timeout
  exact parsePOINTLoop_stuck_at_39 f _ _ _

/-- C7 counterexample: the code-70 flags value 3 has its lowest flag bit set
(the DXF closed bit), yet the parsed LWPOLYLINE's closed-shape field is
false, because the source compares the value with 1 by strict equality
instead of testing the bit. -/
theorem parseLWPOLYLINE_flags3_not_closed :
    Nat.testBit 3 0 = true ∧
    (parseLWPOLYLINE 10 ⟨⟨0, .str "LWPOLYLINE"⟩,
        [⟨70, .num 3⟩, ⟨0, .str "ENDSEC"⟩]⟩).entity?.map Entity.shape =
      some (some false) :=
  ⟨rfl, rfl⟩

/-- C7 amended: the parsed LWPOLYLINE's closed-shape flag is set exactly when
the code-70 group value is strictly equal (JS ===) to the number 1, not by a
bit test; so values 3 and 129 leave it false. -/
theorem parseLWPOLYLINE_shape_iff_eq_one (g : GVal) :
    (parseLWPOLYLINE 10 ⟨⟨0, .str "LWPOLYLINE"⟩,
        [⟨70, g⟩, ⟨0, .str "ENDSEC"⟩]⟩).entity?.map Entity.shape =
      some (some (g == GVal.num 1)) := rfl

/-- C2 counterexample: an ENTITIES section containing one MTEXT entity and
nothing else produces an empty entities array: MTEXT has no sub-parser in
the source and is skipped with a warning, not parsed to a typed record. -/
theorem parseEntities_mtext_skipped :
    parseEntities 10 false
        ⟨⟨0, .str "MTEXT"⟩, [⟨8, .str "0"⟩, ⟨0, .str "ENDSEC"⟩, ⟨0, .str "EOF"⟩]⟩ =
      .ok [] ⟨⟨0, .str "EOF"⟩, []⟩ := rfl

/-- C2 amended: the source has entity sub-parsers exactly for LWPOLYLINE,
LINE, CIRCLE, ARC, TEXT, DIMENSION, SOLID and POINT, each of which yields a
typed record carrying its type tag; POLYLINE, MTEXT, INSERT, SPLINE and
ELLIPSE are skipped as unsupported, yielding no record. -/
theorem parseEntities_dispatch :
    (parseEntities 10 false (entStream "LINE") =
        .ok [{ type := .str "LINE" }] ⟨⟨0, .str "EOF"⟩, []⟩) ∧
    (parseEntities 10 false (entStream "LWPOLYLINE") =
        .ok [{ type := .str "LWPOLYLINE" }] ⟨⟨0, .str "EOF"⟩, []⟩) ∧
    (parseEntities 10 false (entStream "CIRCLE") =
        .ok [{ type := .str "CIRCLE" }] ⟨⟨0, .str "EOF"⟩, []⟩) ∧
    (parseEntities 10 false (entStream "ARC") =
        .ok [{ type := .str "ARC" }] ⟨⟨0, .str "EOF"⟩, []⟩) ∧
    (parseEntities 10 false (entStream "TEXT") =
        .ok [{ type := .str "TEXT" }] ⟨⟨0, .str "EOF"⟩, []⟩) ∧
    (parseEntities 10 false (entStream "DIMENSION") =
        .ok [{ type := .str "DIMENSION" }] ⟨⟨0, .str "EOF"⟩, []⟩) ∧
    (parseEntities 10 false (entStream "SOLID") =
        .ok [{ type := .str "SOLID" }] ⟨⟨0, .str "EOF"⟩, []⟩) ∧
    (parseEntities 10 false (entStream "POINT") =
        .ok [{ type := .str "POINT" }] ⟨⟨0, .str "EOF"⟩, []⟩) ∧
    (parseEntities 10 false (entStream "POLYLINE") = .ok [] ⟨⟨0, .str "EOF"⟩, []⟩) ∧
    (parseEntities 10 false (entStream "MTEXT") = .ok [] ⟨⟨0, .str "EOF"⟩, []⟩) ∧
    (parseEntities 10 false (entStream "INSERT") = .ok [] ⟨⟨0, .str "EOF"⟩, []⟩) ∧
    (parseEntities 10 false (entStream "SPLINE") = .ok [] ⟨⟨0, .str "EOF"⟩, []⟩) ∧
    (parseEntities 10 false (entStream "ELLIPSE") = .ok [] ⟨⟨0, .str "EOF"⟩, []⟩) :=
  ⟨rfl, rfl, rfl, rfl, rfl, rfl, rfl, rfl, rfl, rfl, rfl, rfl, rfl⟩

/-- C3 counterexample: an LWPOLYLINE whose code-10 vertex data appears
without a preceding positive code-90 vertex count does not produce an entity
with an empty vertex field; parsePolylineVertices throws the
n-must-be-greater-than-0 error, which is none of the claimed
structural-precondition errors. -/
theorem parseLWPOLYLINE_count_throw :
    parseLWPOLYLINE 10 ⟨⟨0, .str "LWPOLYLINE"⟩,
        [⟨10, .num 5⟩, ⟨20, .num 5⟩, ⟨0, .str "ENDSEC"⟩]⟩ =
      .err .nMustBePositive := rfl

/-- C3 amended: missing optional data is tolerated (a LINE without vertex
groups is returned with an empty vertex list), but two validation paths do
raise beyond the structural-precondition errors: parsePoint throws the
Expected-code error when the y group does not follow the x group, and
parsePolylineVertices throws when the vertex count is not positive. -/
theorem entity_subparser_error_modes :
    (parseLINE 10 ⟨⟨0, .str "LINE"⟩, [⟨8, .str "0"⟩, ⟨0, .str "ENDSEC"⟩]⟩ =
        .ok { type := .str "LINE", layer := some (.str "0") } ⟨⟨0, .str "ENDSEC"⟩, []⟩) ∧
    (∀ (c : Int) (x : GVal) (g : DxfGroup) (rest : List DxfGroup), g.code ≠ c + 10 →
        parsePoint ⟨⟨c, x⟩, g :: rest⟩ = .error (.pointCodeMismatch (c + 10) g.code)) ∧
    (∀ n : ℚ, n ≤ 0 → ∀ s : PState, parsePolylineVertices n s = .error .nMustBePositive) := by
  refine ⟨rfl, ?_, ?_⟩
  · intro c x g rest h
    simp [parsePoint, pnext, h]
  · intro n h s
    simp [parsePolylineVertices, h]

/-- Witness for the amended C3 theorem at concrete inputs: a point whose
next group carries code 30 instead of 20, and a vertex count of 0. -/
theorem entity_subparser_error_modes_witness :
    parsePoint ⟨⟨10, .num 0⟩, [⟨30, .num 1⟩]⟩ = .error (.pointCodeMismatch 20 30) ∧
    parsePolylineVertices 0 ⟨⟨10, .num 5⟩, []⟩ = .error .nMustBePositive :=
  ⟨entity_subparser_error_modes.2.1 10 (.num 0) ⟨30, .num 1⟩ [] (by decide),
   entity_subparser_error_modes.2.2 0 le_rfl ⟨⟨10, .num 5⟩, []⟩⟩

/-- C10: a source value that is not a string is never parsed and never
throws: parseSync logs the cannot-read error and returns undefined. -/
theorem parseSync_nonstring (v : JsVal) (h : typeofIsString v = false) :
    parseSync v = (.undefinedRet, true) := by
  cases v <;> simp_all [parseSync, typeofIsString]

/-- Witness for C10 at a concrete non-string source. -/
theorem parseSync_nonstring_witness :
    parseSync .nullV = (.undefinedRet, true) :=
  parseSync_nonstring .nullV rfl

/-- C6 counterexample: an ARC with start angle 0 and end angle 360 degrees
(both groups present, code 50 before code 51) gets angleLength = 2*pi, which
is not inside the claimed interval [0, 2*pi). -/
theorem parseCIRCLE_full_turn_angleLength :
    (parseCIRCLE 10 ⟨⟨0, .str "ARC"⟩,
        [⟨50, .num 0⟩, ⟨51, .num 360⟩, ⟨0, .str "ENDSEC"⟩]⟩).entity?.map
      Entity.angleLength = some (some (2 * Real.pi)) ∧
    ¬ (2 * Real.pi < 2 * Real.pi) := by
  constructor
  · have h : (parseCIRCLE 10 ⟨⟨0, .str "ARC"⟩,
        [⟨50, .num 0⟩, ⟨51, .num 360⟩, ⟨0, .str "ENDSEC"⟩]⟩).entity?.map
      Entity.angleLength = some (some (specAngleLength 0 360)) := rfl
    rw [h, specAngleLength, if_neg]
    · norm_num
      ring
    · push_cast
      intro hlt
      nlinarith [Real.pi_pos]
  · exact lt_irrefl _

/-- C6 amended: for an ARC whose code-50 start-angle group precedes its
code-51 end-angle group, both angles are converted from degrees to radians
and angleLength is the end minus start difference with a full turn added
when the raw subtraction is negative; for raw degree angles inside [0, 360)
this places angleLength inside [0, 2*pi). -/
theorem parseCIRCLE_angle_wraparound (sa ea : ℚ)
    (h1 : 0 ≤ sa) (h2 : sa < 360) (h3 : 0 ≤ ea) (h4 : ea < 360) :
    parseCIRCLE 10 ⟨⟨0, .str "ARC"⟩, [⟨50, .num sa⟩, ⟨51, .num ea⟩, ⟨0, .str "ENDSEC"⟩]⟩ =
      .ok { type := .str "ARC",
            startAngle := some (Real.pi / 180 * (sa : ℝ)),
            endAngle := some (Real.pi / 180 * (ea : ℝ)),
            angleLength := some (specAngleLength sa ea) }
        ⟨⟨0, .str "ENDSEC"⟩, []⟩ ∧
    0 ≤ specAngleLength sa ea ∧ specAngleLength sa ea < 2 * Real.pi := by
  have hc : (0 : ℝ) < Real.pi / 180 := by positivity
  have hsa0 : (0 : ℝ) ≤ (sa : ℝ) := by exact_mod_cast h1
  have hsa360 : (sa : ℝ) < 360 := by exact_mod_cast h2
  have hea0 : (0 : ℝ) ≤ (ea : ℝ) := by exact_mod_cast h3
  have hea360 : (ea : ℝ) < 360 := by exact_mod_cast h4
  have h2pi : 2 * Real.pi = Real.pi / 180 * 360 := by ring
  refine ⟨rfl, ?_, ?_⟩
  · rw [specAngleLength]
    split_ifs with hlt
    · have : (ea : ℝ) < (sa : ℝ) := (mul_lt_mul_left hc).mp hlt
      nlinarith
    · have : Real.pi / 180 * (sa : ℝ) ≤ Real.pi / 180 * (ea : ℝ) := le_of_not_lt hlt
      linarith
  · rw [specAngleLength]
    split_ifs with hlt
    · have hlt2 : (ea : ℝ) < (sa : ℝ) := (mul_lt_mul_left hc).mp hlt
      rw [h2pi]
      nlinarith
    · rw [h2pi]
      nlinarith

/-- Witness for the amended C6 theorem at the angles from the claim: start
350 degrees, end 10 degrees. -/
theorem parseCIRCLE_angle_wraparound_witness :
    (parseCIRCLE 10 ⟨⟨0, .str "ARC"⟩, [⟨50, .num 350⟩, ⟨51, .num 10⟩, ⟨0, .str "ENDSEC"⟩]⟩ =
      .ok { type := .str "ARC",
            startAngle := some (Real.pi / 180 * ((350 : ℚ) : ℝ)),
            endAngle := some (Real.pi / 180 * ((10 : ℚ) : ℝ)),
            angleLength := some (specAngleLength 350 10) }
        ⟨⟨0, .str "ENDSEC"⟩, []⟩ ∧
    0 ≤ specAngleLength 350 10 ∧ specAngleLength 350 10 < 2 * Real.pi) ∧
    specAngleLength 350 10 = Real.pi / 9 := by
  constructor
  · exact parseCIRCLE_angle_wraparound 350 10 (by norm_num) (by norm_num)
      (by norm_num) (by norm_num)
  · rw [specAngleLength, if_pos]
    · push_cast
      ring
    · push_cast
      nlinarith [Real.pi_pos]

/-- C8: a LAYER record's code-62 color group marks the layer hidden exactly
when the value is nonpositive, and the absolute value resolves through the
palette; in particular color code -3 gives a hidden layer with palette entry
3 (65280) and color code 3 gives a visible layer with the same palette
entry. -/
theorem parseLayers_hidden_color :
    (∀ (nm : String) (v : Int), (v : ℚ) ≤ 0 →
      parseLayers 10 (layerStream nm v) =
        .ok [(some (.str nm),
              { name := some (.str nm), hidden := true, color := getAcadColor |(v : ℚ)| })]
          ⟨⟨0, .str "ENDTAB"⟩, []⟩) ∧
    (∀ (nm : String) (v : Int), 0 < (v : ℚ) →
      parseLayers 10 (layerStream nm v) =
        .ok [(some (.str nm),
              { name := some (.str nm), hidden := false, color := getAcadColor |(v : ℚ)| })]
          ⟨⟨0, .str "ENDTAB"⟩, []⟩) ∧
    (parseLayers 10 (layerStream "A" (-3)) =
        .ok [(some (.str "A"),
              { name := some (.str "A"), hidden := true, color := some 65280 })]
          ⟨⟨0, .str "ENDTAB"⟩, []⟩) ∧
    (parseLayers 10 (layerStream "A" 3) =
        .ok [(some (.str "A"),
              { name := some (.str "A"), hidden := false, color := some 65280 })]
          ⟨⟨0, .str "ENDTAB"⟩, []⟩) := by
  refine ⟨?_, ?_, rfl, rfl⟩
  · intro nm v h
    simp [parseLayers, layerStream, parseLayersLoop, pnext, jsNum, jsObjSet, h]
  · intro nm v h
    have h2 : ¬ ((v : ℚ) ≤ 0) := not_le.mpr h
    simp [parseLayers, layerStream, parseLayersLoop, pnext, jsNum, jsObjSet, h2]

/-- Witness for C8 at concrete color codes beyond the two built-in concrete
conjuncts: color code -1 (hidden, palette entry 1) and 7 (visible). -/
theorem parseLayers_hidden_color_witness :
    parseLayers 10 (layerStream "B" (-1)) =
      .ok [(some (.str "B"),
            { name := some (.str "B"), hidden := true, color := getAcadColor |((-1 : Int) : ℚ)| })]
        ⟨⟨0, .str "ENDTAB"⟩, []⟩ ∧
    parseLayers 10 (layerStream "B" 7) =
      .ok [(some (.str "B"),
            { name := some (.str "B"), hidden := false, color := getAcadColor |((7 : Int) : ℚ)| })]
        ⟨⟨0, .str "ENDTAB"⟩, []⟩ :=
  ⟨parseLayers_hidden_color.1 "B" (-1) (by norm_num),
   parseLayers_hidden_color.2.1 "B" 7 (by norm_num)⟩

/-- C9 counterexample: an LTYPE declaring four pattern elements (73 = 4) but
supplying three, as the final record of its table (flushed at ENDTAB), is
returned with the 3-element pattern but WITHOUT any logged warning — the
declared-count check only runs when a record is flushed by a following
code-0 group. -/
theorem parseLineTypes_endtab_mismatch_no_warning :
    parseLineTypes 20 (ltypeOneRecordStream 4) =
      .ok ([(some (.str "A"),
            { name := some (.str "A"),
              pattern := some [.num 1, .num (-2), .num 1] })], false)
        ⟨⟨0, .str "ENDTAB"⟩, []⟩ := rfl

/-- C9 amended: the pattern field is allocated exactly by a positive declared
element count (code 73); a declared-count mismatch is tolerated (the record
is kept with the parsed pattern, no throw) and logs a warning only when the
record is flushed by a following code-0 group — the final record of the
table, flushed at ENDTAB, is stored without the check, so no warning is
logged for it. -/
theorem parseLineTypes_mismatch_tolerance :
    (∀ n : ℚ, 0 < n → n ≠ 3 →
      parseLineTypes 20 (ltypeTwoRecordStream n) =
        .ok ([(some (.str "A"),
               { name := some (.str "A"), pattern := some [.num 1, .num (-2), .num 1] }),
              (some (.str "B"), { name := some (.str "B") })], true)
          ⟨⟨0, .str "ENDTAB"⟩, []⟩) ∧
    (∀ n : ℚ, 0 < n → n ≠ 3 →
      parseLineTypes 20 (ltypeOneRecordStream n) =
        .ok ([(some (.str "A"),
               { name := some (.str "A"), pattern := some [.num 1, .num (-2), .num 1] })], false)
          ⟨⟨0, .str "ENDTAB"⟩, []⟩) ∧
    (parseLineTypes 20 ⟨⟨0, .str "LTYPE"⟩, [⟨2, .str "C"⟩, ⟨0, .str "ENDTAB"⟩]⟩ =
        .ok ([(some (.str "C"), { name := some (.str "C") })], false)
          ⟨⟨0, .str "ENDTAB"⟩, []⟩) := by
  refine ⟨?_, ?_, rfl⟩
  · intro n h0 h3
    simp [parseLineTypes, ltypeTwoRecordStream, parseLineTypesLoop, pnext, jsNum,
      jsObjSet, beq_iff_eq, h0, h3]
  · intro n h0 h3
    simp [parseLineTypes, ltypeOneRecordStream, parseLineTypesLoop, pnext, jsNum,
      jsObjSet, h0, h3]

/-- Witness for the amended C9 theorem at the declared count 4 from the
claim. -/
theorem parseLineTypes_mismatch_tolerance_witness :
    parseLineTypes 20 (ltypeTwoRecordStream 4) =
      .ok ([(some (.str "A"),
             { name := some (.str "A"), pattern := some [.num 1, .num (-2), .num 1] }),
            (some (.str "B"), { name := some (.str "B") })], true)
        ⟨⟨0, .str "ENDTAB"⟩, []⟩ ∧
    parseLineTypes 20 (ltypeOneRecordStream 4) =
      .ok ([(some (.str "A"),
             { name := some (.str "A"), pattern := some [.num 1, .num (-2), .num 1] })], false)
        ⟨⟨0, .str "ENDTAB"⟩, []⟩ :=
  ⟨parseLineTypes_mismatch_tolerance.1 4 (by norm_num) (by norm_num),
   parseLineTypes_mismatch_tolerance.2.1 4 (by norm_num) (by norm_num)⟩

/-- C4: scanner exhaustion semantics. When fewer than two unread lines remain
and the EOF group was never read, next() fails with the unexpected-EOF error;
once the EOF flag is set (which a successful next() does exactly on reading
a (0, EOF) group), next() fails with the end-of-input error; and hasNext()
is true exactly when the EOF group has not been consumed and at least two
unread lines remain. -/
theorem scanner_exhaustion :
    (∀ sc : DxfArrayScanner, sc.eof = false →
        (sc.pointer : Int) > (sc.data.length : Int) - 2 →
        sc.next = .error .unexpectedEof) ∧
    (∀ sc : DxfArrayScanner, sc.eof = true → sc.next = .error .endOfInput) ∧
    (∀ sc : DxfArrayScanner,
        sc.hasNext = true ↔ (sc.eof = false ∧ sc.pointer + 2 ≤ sc.data.length)) ∧
    (∀ (sc sc1 : DxfArrayScanner) (g : AGroup), sc.next = .ok (g, sc1) →
        (sc1.eof = true ↔ (g.code = some 0 ∧ g.value = .str "EOF"))) := by
  refine ⟨?_, ?_, ?_, ?_⟩
  · intro sc he hp
    rw [DxfArrayScanner.next, if_pos]
    · rw [if_pos (by simp [he])]
    · simp [DxfArrayScanner.hasNext, he, hp]
  · intro sc he
    rw [DxfArrayScanner.next, if_pos]
    · rw [if_neg (by simp [he])]
    · simp [DxfArrayScanner.hasNext, he]
  · intro sc
    rcases sc with ⟨p, d, e⟩
    cases e
    · simp only [DxfArrayScanner.hasNext]
      simp
      omega
    · simp [DxfArrayScanner.hasNext]
  · intro sc sc1 g h
    have hn : sc.hasNext = true := by
      by_contra hn
      rw [DxfArrayScanner.next, if_pos (by simp [hn])] at h
      by_cases he : sc.eof <;> simp [he] at h
    have he : sc.eof = false := by
      rcases sc with ⟨p, d, e⟩
      cases e
      · rfl
      · simp [DxfArrayScanner.hasNext] at hn
    rw [DxfArrayScanner.next, if_neg (by simp [hn])] at h
    rcases hpv : parseGroupValue (jsParseInt (sc.data.getD sc.pointer ""))
        (jsTrim (sc.data.getD (sc.pointer + 1) "")) with er | vw
    · simp only [hpv] at h
      exact Except.noConfusion h
    · rcases vw with ⟨v, w⟩
      simp only [hpv, Except.ok.injEq, Prod.mk.injEq] at h
      rcases h with ⟨hg, hsc⟩
      subst hg
      subst hsc
      by_cases hc : jsParseInt (sc.data.getD sc.pointer "") = some 0 ∧ v = .str "EOF"
      · simp [hc, he]
      · simp [hc, he]

/-- Witness for the scanner-exhaustion theorem: a two-line scanner past its
data without having seen EOF throws the unexpected-EOF error, one with the
EOF flag set throws the end-of-input error, a fresh two-line scanner has a
next group, and reading the (0, EOF) group sets the flag. -/
theorem scanner_exhaustion_witness :
    DxfArrayScanner.next ⟨2, ["0", "SECTION"], false⟩ = .error .unexpectedEof ∧
    DxfArrayScanner.next ⟨2, ["0", "EOF"], true⟩ = .error .endOfInput ∧
    (DxfArrayScanner.hasNext ⟨0, ["0", "EOF"], false⟩ = true ↔
      ((false : Bool) = false ∧ 0 + 2 ≤ 2)) ∧
    (DxfArrayScanner.eof ⟨2, ["0", "EOF"], true⟩ = true ↔
      (AGroup.code ⟨some 0, .str "EOF"⟩ = some 0 ∧
       AGroup.value ⟨some 0, .str "EOF"⟩ = .str "EOF")) :=
  ⟨scanner_exhaustion.1 ⟨2, ["0", "SECTION"], false⟩ rfl (by norm_num),
   scanner_exhaustion.2.1 ⟨2, ["0", "EOF"], true⟩ rfl,
   scanner_exhaustion.2.2.1 ⟨0, ["0", "EOF"], false⟩,
   scanner_exhaustion.2.2.2 ⟨0, ["0", "EOF"], false⟩ ⟨2, ["0", "EOF"], true⟩
     ⟨some 0, .str "EOF"⟩ rfl⟩

/-- C5: parseGroupValue is pure in (code, raw string) and follows the range
table: codes 0-9 return the string unchanged, 10-59 a float, 60-99 an
integer, 290-299 a boolean with 0 mapping to false and 1 to true and any
other raw string failing with the cast TypeError; a code outside every range
of the table returns the raw string unchanged with the warning logged. -/
theorem parseGroupValue_range_table :
    (∀ (c : Int) (v : String), 0 ≤ c → c ≤ 9 →
        parseGroupValue (some c) v = .ok (.str v, false)) ∧
    (∀ (c : Int) (v : String), 10 ≤ c → c ≤ 59 →
        parseGroupValue (some c) v = .ok (.float (jsParseFloat v), false)) ∧
    (∀ (c : Int) (v : String), 60 ≤ c → c ≤ 99 →
        parseGroupValue (some c) v = .ok (.int (jsParseInt v), false)) ∧
    (∀ c : Int, 290 ≤ c → c ≤ 299 →
        parseGroupValue (some c) "0" = .ok (.bool false, false) ∧
        parseGroupValue (some c) "1" = .ok (.bool true, false) ∧
        (∀ v : String, v ≠ "0" → v ≠ "1" →
            parseGroupValue (some c) v = .error (.typeMismatch v))) ∧
    (∀ (code : Option Int) (v : String), definedCodeRange code = false →
        parseGroupValue code v = .ok (.str v, true)) := by
  refine ⟨?_, ?_, ?_, ?_, ?_⟩
  · intro c v h0 h9
    have e1 : jle (some c) 9 = true := by simp [jle]; omega
    simp [parseGroupValue, e1]
  · intro c v h10 h59
    have e1 : jle (some c) 9 = false := by simp [jle]; omega
    have e2 : jge (some c) 10 = true := by simp [jge]; omega
    have e3 : jle (some c) 59 = true := by simp [jle]; omega
    simp [parseGroupValue, e1, e2, e3]
  · intro c v h60 h99
    have e1 : jle (some c) 9 = false := by simp [jle]; omega
    have e2 : jle (some c) 59 = false := by simp [jle]; omega
    have e3 : jge (some c) 60 = true := by simp [jge]; omega
    have e4 : jle (some c) 99 = true := by simp [jle]; omega
    simp [parseGroupValue, e1, e2, e3, e4]
  · intro c h290 h299
    have e1 : jle (some c) 9 = false := by simp [jle]; omega
    have e2 : jle (some c) 59 = false := by simp [jle]; omega
    have e3 : jle (some c) 99 = false := by simp [jle]; omega
    have e4 : jle (some c) 109 = false := by simp [jle]; omega
    have e5 : jle (some c) 149 = false := by simp [jle]; omega
    have e6 : jle (some c) 179 = false := by simp [jle]; omega
    have e7 : jle (some c) 239 = false := by simp [jle]; omega
    have e8 : jle (some c) 289 = false := by simp [jle]; omega
    have e9 : jge (some c) 290 = true := by simp [jge]; omega
    have e10 : jle (some c) 299 = true := by simp [jle]; omega
    refine ⟨?_, ?_, ?_⟩
    · simp [parseGroupValue, parseBoolean, e1, e2, e3, e4, e5, e6, e7, e8, e9, e10]
    · simp [parseGroupValue, parseBoolean, e1, e2, e3, e4, e5, e6, e7, e8, e9, e10]
    · intro v hv0 hv1
      simp [parseGroupValue, parseBoolean, e1, e2, e3, e4, e5, e6, e7, e8, e9, e10, hv0, hv1]
  · intro code v h
    rw [definedCodeRange] at h
    simp only [Bool.or_eq_false_iff] at h
    obtain ⟨⟨⟨⟨⟨⟨⟨⟨⟨⟨⟨⟨⟨⟨⟨⟨⟨⟨⟨⟨⟨⟨h1, h2⟩, h3⟩, h4⟩, h5⟩, h6⟩, h7⟩, h8⟩, h9⟩, h10⟩,
      h11⟩, h12⟩, h13⟩, h14⟩, h15⟩, h16⟩, h17⟩, h18⟩, h19⟩, h20⟩, h21⟩, h22⟩, h23⟩ := h
    simp [parseGroupValue, h1, h2, h3, h4, h5, h6, h7, h8, h9, h10, h11, h12, h13,
      h14, h15, h16, h17, h18, h19, h20, h21, h22, h23]

/-- Witness for the range-table theorem at concrete codes: the type-tag code
0 keeps the string, code 10 yields a float, code 70 an integer, code 290 the
two boolean values and the TypeError, and the undocumented code 150 falls
through with the warning. -/
theorem parseGroupValue_range_table_witness :
    parseGroupValue (some 0) "LINE" = .ok (.str "LINE", false) ∧
    parseGroupValue (some 10) "3.5" = .ok (.float (jsParseFloat "3.5"), false) ∧
    parseGroupValue (some 70) "3" = .ok (.int (jsParseInt "3"), false) ∧
    parseGroupValue (some 290) "0" = .ok (.bool false, false) ∧
    parseGroupValue (some 290) "1" = .ok (.bool true, false) ∧
    parseGroupValue (some 290) "2" = .error (.typeMismatch "2") ∧
    parseGroupValue (some 150) "x" = .ok (.str "x", true) :=
  ⟨parseGroupValue_range_table.1 0 "LINE" (by norm_num) (by norm_num),
   parseGroupValue_range_table.2.1 10 "3.5" (by norm_num) (by norm_num),
   parseGroupValue_range_table.2.2.1 70 "3" (by norm_num) (by norm_num),
   (parseGroupValue_range_table.2.2.2.1 290 (by norm_num) (by norm_num)).1,
   (parseGroupValue_range_table.2.2.2.1 290 (by norm_num) (by norm_num)).2.1,
   (parseGroupValue_range_table.2.2.2.1 290 (by norm_num) (by norm_num)).2.2 "2"
     (by decide) (by decide),
   parseGroupValue_range_table.2.2.2.2 (some 150) "x" (by decide)⟩
